import Mathlib

set_option autoImplicit false

/-!
Shallow embedding of the Sahayak backend voice-command orchestrator
(apps/backend/app): the agent schemas, the LLM fallback planner, the
plan-response validation, the orchestrator handlers (process_command,
finalize_audio, handle_execution_result), the connection manager's
broadcast loop, and the STT audio-format detection.

Conventions of the embedding:
- Python bytes are `List Nat` (one Nat per byte).
- Python dicts keyed by user id / plan id are functions `String → Option _`.
- External services (Groq LLM, Deepgram STT, Edge TTS, the audit store)
  are modelled by an `Env` record giving the outcome of each call during
  one handler run: `none` means the awaited call raised, `some` is its
  return value.  Raising code paths are embedded as explicit branching
  on those outcomes, exactly following the try/except structure of the
  source.
- Outbound `ws.send_json` calls are collected in order into a trace of
  `OutFrame` values; a handler returns its trace together with the
  updated shared state.
-/

/-- JSON values, used for plan metadata and for the parsed LLM response. -/
inductive Json where
  | null : Json
  | bool (b : Bool) : Json
  | num (q : ℚ) : Json
  | str (s : String) : Json
  | arr (elems : List Json) : Json
  | obj (fields : List (String × Json)) : Json

/-- app/schemas/agent.py: `AgentTarget` (all fields optional). -/
structure AgentTarget where
  aria : Option String
  element_id : Option String

/-- app/schemas/agent.py: `AgentStep` (kind required, rest optional). -/
structure AgentStep where
  kind : String
  url : Option String
  target : Option AgentTarget
  value : Option String
  text : Option String

/-- app/schemas/agent.py: `AgentActionPlan` (plan_id and steps required,
meta an optional dict). -/
structure AgentActionPlan where
  plan_id : String
  steps : List AgentStep
  meta : Option (List (String × Json))

/-- Does `needle` occur at the head of `hay`? (chars compared one by one). -/
def leadEq : List Char → List Char → Bool
  | [], _ => true
  | _ :: _, [] => false
  | a :: as, b :: bs => a == b && leadEq as bs

/-- Substring occurrence on char lists, embedding Python `needle in hay`. -/
def subIn (needle : List Char) : List Char → Bool
  | [] => needle.isEmpty
  | b :: bs => leadEq needle (b :: bs) || subIn needle bs

/-- Python `needle in hay` for strings. -/
def strContains (hay needle : String) : Bool :=
  subIn needle.data hay.data

/-- Python `s.lower()` (all strings involved are ASCII). -/
def lowerStr (s : String) : String := ⟨s.data.map Char.toLower⟩

/-- Python `any(w in lower for w in ws)`. -/
def anyIn (lower : String) (ws : List String) : Bool :=
  ws.any (fun w => strContains lower w)

/-- app/services/llm_service.py `LLMService.create_simple_plan`:
keyword-routed deterministic fallback plan.  Python draws a fresh uuid4
for the plan id; here the fresh id is a parameter. -/
def create_simple_plan (plan_id : String) (transcript : String) : AgentActionPlan :=
  let lower := lowerStr transcript
  if anyIn lower ["balance", "account", "money", "kitna"] then
    ⟨plan_id,
      [⟨"navigate", some "/dashboard", none, none, none⟩,
       ⟨"speak", none, none, none, some "Here is your account balance."⟩],
      some [("confidence", Json.num (9/10)), ("source", Json.str "fallback")]⟩
  else if anyIn lower ["transfer", "send", "bhejo", "payment"] then
    ⟨plan_id,
      [⟨"navigate", some "/transfers", none, none, none⟩,
       ⟨"speak", none, none, none,
        some "Opening transfers. Who would you like to send money to?"⟩],
      some [("confidence", Json.num (85/100)), ("source", Json.str "fallback")]⟩
  else if anyIn lower ["bill", "electricity", "water", "gas", "broadband"] then
    ⟨plan_id,
      [⟨"navigate", some "/bills", none, none, none⟩,
       ⟨"speak", none, none, none,
        some "Opening bill payments. Which bill would you like to pay?"⟩],
      some [("confidence", Json.num (85/100)), ("source", Json.str "fallback")]⟩
  else if anyIn lower ["profile", "settings", "beneficiary"] then
    ⟨plan_id,
      [⟨"navigate", some "/profile", none, none, none⟩,
       ⟨"speak", none, none, none, some "Opening your profile settings."⟩],
      some [("confidence", Json.num (85/100)), ("source", Json.str "fallback")]⟩
  else
    ⟨plan_id,
      [⟨"speak", none, none, none,
        some "I can help you check balance, transfer money, or pay bills. What would you like to do?"⟩],
      some [("confidence", Json.num (1/2)), ("source", Json.str "fallback")]⟩

/-- Is this step a speak step? -/
def isSpeakStep (s : AgentStep) : Bool := s.kind == "speak"

/-- Does this step carry non-empty (Python-truthy) speak text? -/
def speakTextOk (s : AgentStep) : Bool :=
  match s.text with
  | some txt => !(txt == "")
  | none => false

/-! ### Pydantic validation of the parsed LLM response

`generate_action_plan` builds `AgentActionPlan(**plan_dict)` from the JSON
object extracted out of the model reply (llm_service.py lines 77-89); a
failing validation raises and is embedded as `none` below. -/

/-- Dict field lookup (JSON object keys are unique after parsing). -/
def getField (kvs : List (String × Json)) (k : String) : Option Json :=
  match kvs with
  | [] => none
  | (k2, v) :: rest => if k2 == k then some v else getField rest k

/-- A required `str` field: present and a JSON string, else validation fails. -/
def asStr : Option Json → Option String
  | some (Json.str s) => some s
  | _ => none

/-- An `Optional[str]` field: absent or null becomes `none`; a JSON string is
kept; any other value fails validation. -/
def asOptStr : Option Json → Option (Option String)
  | none => some none
  | some Json.null => some none
  | some (Json.str s) => some (some s)
  | some _ => none

/-- Validation of `AgentTarget` from a JSON value. -/
def validateTarget : Json → Option AgentTarget
  | Json.obj kvs => do
    let aria ← asOptStr (getField kvs "aria")
    let eid ← asOptStr (getField kvs "element_id")
    pure ⟨aria, eid⟩
  | _ => none

/-- Validation of `AgentStep` from a JSON value: `kind` required, the other
fields optional. -/
def validateStep : Json → Option AgentStep
  | Json.obj kvs => do
    let kind ← asStr (getField kvs "kind")
    let url ← asOptStr (getField kvs "url")
    let target ← match getField kvs "target" with
      | none => some none
      | some Json.null => some none
      | some j => (validateTarget j).map some
    let value ← asOptStr (getField kvs "value")
    let text ← asOptStr (getField kvs "text")
    pure ⟨kind, url, target, value, text⟩
  | _ => none

/-- Validation of `AgentActionPlan`: `plan_id` a required string, `steps` a
required list of steps (a plain `List`, emptiness is not checked), `meta` an
optional dict. -/
def validatePlan : Json → Option AgentActionPlan
  | Json.obj kvs => do
    let pid ← asStr (getField kvs "plan_id")
    let steps ← match getField kvs "steps" with
      | some (Json.arr xs) => xs.mapM validateStep
      | _ => none
    let meta ← match getField kvs "meta" with
      | none => some none
      | some Json.null => some none
      | some (Json.obj m) => some (some m)
      | some _ => none
    pure ⟨pid, steps, meta⟩
  | _ => none

/-- llm_service.py `generate_action_plan`, lines 82-89: the stage after the
upstream reply has been regex-extracted and JSON-parsed into `plan_dict`.
A missing `plan_id` is filled in with the locally drawn uuid (`freshId`);
then the pydantic model validates.  `none` embeds the raising paths
(non-object JSON or schema violation), which `process_command` catches. -/
def plan_from_response (freshId : String) (plan_dict : Json) : Option AgentActionPlan :=
  match plan_dict with
  | Json.obj kvs =>
    let kvs2 := if (getField kvs "plan_id").isNone
      then kvs ++ [("plan_id", Json.str freshId)] else kvs
    validatePlan (Json.obj kvs2)
  | j => validatePlan j

/-! ### Outbound frames and the external-service environment -/

/-- One outbound `ws.send_json` frame of the agent protocol
(agent_orchestrator.py): `AGENT_SPEAK` with TTS audio (mime audio/mpeg),
text-only `AGENT_SPEAK` with `use_browser_tts := true`, or
`ACTION_DISPATCH` carrying a plan. -/
inductive OutFrame where
  | agentSpeakAudio (audio : List Nat) (text : String) : OutFrame
  | agentSpeakText (text : String) : OutFrame
  | actionDispatch (plan : AgentActionPlan) : OutFrame

/-- Is this frame an `AGENT_SPEAK` frame (either variant)? -/
def isSpeakFrame : OutFrame → Bool
  | OutFrame.agentSpeakAudio _ _ => true
  | OutFrame.agentSpeakText _ => true
  | OutFrame.actionDispatch _ => false

/-- Is this frame an `ACTION_DISPATCH` frame? -/
def isDispatchFrame : OutFrame → Bool
  | OutFrame.actionDispatch _ => true
  | _ => false

/-- The spoken text carried by an `AGENT_SPEAK` frame. -/
def frameText : OutFrame → Option String
  | OutFrame.agentSpeakAudio _ t => some t
  | OutFrame.agentSpeakText t => some t
  | OutFrame.actionDispatch _ => none

/-- Outcomes of the external calls awaited during one handler run.
`none` always means the awaited call raised an exception. -/
structure Env where
  /-- The uuid4 drawn locally for a fallback / filled-in plan id. -/
  freshPlanId : String
  /-- Outcome of `llm.generate_action_plan(transcript, context)`. -/
  llmResult : Option AgentActionPlan
  /-- Outcome of `audit_service.log_command(...)`: the new audit id. -/
  auditResult : Option Nat
  /-- Outcome of `tts.synthesize(text)`: `none` for raised or no audio. -/
  ttsResult : String → Option (List Nat)
  /-- Outcome of `stt.transcribe(audio)`: raised, or `Optional[str]`. -/
  sttResult : List Nat → Option (Option String)

/-- The single frame `_speak_to_client` sends for `text`: the TTS audio
frame when synthesis yields (truthy) audio bytes, else the text-only
browser-TTS fallback frame (agent_orchestrator.py lines 103-130). -/
def speakFrameOf (env : Env) (text : String) : OutFrame :=
  match env.ttsResult text with
  | some audio =>
    if audio.isEmpty then OutFrame.agentSpeakText text
    else OutFrame.agentSpeakAudio audio text
  | none => OutFrame.agentSpeakText text

/-- agent_orchestrator.py `_speak_to_client`: try TTS, fall back to a
text-only frame on failure or empty audio; always one `AGENT_SPEAK` frame
(the sends themselves are modelled as succeeding). -/
def speak_to_client (env : Env) (text : String) : List OutFrame :=
  [speakFrameOf env text]

/-- agent_orchestrator.py `_get_acknowledgement`: the `text` field of the
first step whose kind is "speak" (which may itself be `None`). -/
def get_acknowledgement (steps : List AgentStep) : Option String :=
  match steps with
  | [] => none
  | s :: rest => if s.kind == "speak" then s.text else get_acknowledgement rest

/-- The plan used by `process_command`: the LLM result, or on any
exception the keyword fallback plan (agent_orchestrator.py lines 66-72). -/
def chosen_plan (env : Env) (transcript : String) : AgentActionPlan :=
  match env.llmResult with
  | some p => p
  | none => create_simple_plan env.freshPlanId transcript

/-- The acknowledgement frames sent before the dispatch: one speak frame
when the plan yields truthy acknowledgement text, else nothing
(agent_orchestrator.py lines 92-95, `if speak_text:`). -/
def ack_frames (env : Env) (plan : AgentActionPlan) : List OutFrame :=
  match get_acknowledgement plan.steps with
  | some s => if s == "" then [] else speak_to_client env s
  | none => []

/-- Result of one `process_command` run: ordered outbound frames and the
updated `pending_audits` map. -/
structure ProcResult where
  trace : List OutFrame
  pending : String → Option Nat

/-- agent_orchestrator.py `process_command` (lines 59-101): choose the
plan (LLM, else fallback); try to log to the audit trail, registering
`plan_id → audit_id` only when logging succeeds; send the acknowledgement
speak frame first, then the `ACTION_DISPATCH` frame. -/
def process_command (env : Env) (pending : String → Option Nat)
    (transcript : String) : ProcResult :=
  let plan := chosen_plan env transcript
  let pending2 : String → Option Nat :=
    match env.auditResult with
    | some audit_id => fun k => if k == plan.plan_id then some audit_id else pending k
    | none => pending
  { trace := ack_frames env plan ++ [OutFrame.actionDispatch plan],
    pending := pending2 }

/-- Result of one `finalize_audio` run: outbound frames, updated audio
buffers, updated pending-audit map, and the payloads passed to
`stt.transcribe` (to observe whether transcription was invoked). -/
structure FinalizeResult where
  trace : List OutFrame
  buffers : String → Option (List Nat)
  pending : String → Option Nat
  sttCalls : List (List Nat)

/-- agent_orchestrator.py `finalize_audio` (lines 139-160): pop the audio
buffer; if missing/shorter than 100 bytes just log and return; else
transcribe — on a raised transcription error send the error speak reply,
on an empty/absent transcript send the "did not catch that" reply, else
run `process_command` on the transcript. -/
def finalize_audio (env : Env) (buffers : String → Option (List Nat))
    (pending : String → Option Nat) (user_id : String) : FinalizeResult :=
  let audio := (buffers user_id).getD []
  let buffers2 : String → Option (List Nat) :=
    fun u => if u == user_id then none else buffers u
  if audio.length < 100 then
    { trace := [], buffers := buffers2, pending := pending, sttCalls := [] }
  else
    match env.sttResult audio with
    | none =>
      { trace := speak_to_client env "Sorry, there was an error. Please try again.",
        buffers := buffers2, pending := pending, sttCalls := [audio] }
    | some none =>
      { trace := speak_to_client env "Sorry, I didn\x27t catch that. Please try again.",
        buffers := buffers2, pending := pending, sttCalls := [audio] }
    | some (some t) =>
      if t == "" then
        { trace := speak_to_client env "Sorry, I didn\x27t catch that. Please try again.",
          buffers := buffers2, pending := pending, sttCalls := [audio] }
      else
        let r := process_command env pending t
        { trace := r.trace, buffers := buffers2, pending := r.pending,
          sttCalls := [audio] }

/-- Python `f"{x}"` for an `Optional[str]`. -/
def pyOptStr : Option String → String
  | none => "None"
  | some s => s

/-- Result of one `handle_execution_result` run: outbound frames, updated
pending-audit map, and the `(audit_id, result, error)` patches sent to
`audit_service.update_result`. -/
structure ExecResult where
  trace : List OutFrame
  pending : String → Option Nat
  auditUpdates : List (Nat × Option String × Option String)

/-- agent_orchestrator.py `handle_execution_result` (lines 37-57): if the
payload's plan id is truthy and present in `pending_audits`, pop it and
patch the audit record; then always send a speak reply ("Done..." when the
status is "success", an error-bearing message otherwise). -/
def handle_execution_result (env : Env) (pending : String → Option Nat)
    (plan_id : Option String) (status : Option String) (error : Option String) :
    ExecResult :=
  let hit : Option (String × Nat) :=
    match plan_id with
    | some pid => if pid == "" then none else (pending pid).map (fun a => (pid, a))
    | none => none
  let upd : (String → Option Nat) × List (Nat × Option String × Option String) :=
    match hit with
    | some (pid, audit_id) =>
      (fun k => if k == pid then none else pending k, [(audit_id, status, error)])
    | none => (pending, [])
  let text :=
    if status == some "success" then "Done. What else can I help you with?"
    else "Sorry, something went wrong: " ++ pyOptStr error
  { trace := speak_to_client env text, pending := upd.1, auditUpdates := upd.2 }

/-- app/websockets/manager.py `broadcast` (lines 29-31): iterate over the
registered connections in order and `await ws.send_json(data)` on each.
Each connection carries a flag telling whether its send succeeds; the
loop body has no exception handling, so a raising send ends the loop.
Returns the `(user, data)` deliveries made, and whether the loop finished
without an exception. -/
def broadcast (data : String) : List (String × Bool) → List (String × String) × Bool
  | [] => ([], true)
  | c :: rest =>
    if c.2 then
      let r := broadcast data rest
      ((c.1, data) :: r.1, r.2)
    else ([], false)

/-- stt_service.py `_detect_audio_format` (lines 75-109): classify the
container from the first bytes; payloads shorter than 12 bytes default to
webm/opus, otherwise the magic numbers are tried in source order. -/
def detect_audio_format (audio : List Nat) : String × Option String :=
  if audio.length < 12 then ("audio/webm", some "opus")
  else
    let header := audio.take 12
    if header.take 4 = [0x52, 0x49, 0x46, 0x46] ∧
        (header.drop 8).take 4 = [0x57, 0x41, 0x56, 0x45] then
      ("audio/wav", none)
    else if header.take 4 = [0x1a, 0x45, 0xdf, 0xa3] then ("audio/webm", none)
    else if header.take 4 = [0x4f, 0x67, 0x67, 0x53] then ("audio/ogg", none)
    else if header.take 4 = [0x66, 0x4c, 0x61, 0x43] then ("audio/flac", none)
    else if header.take 3 = [0x49, 0x44, 0x33] ∨
        (header.getD 0 0 = 0xff ∧ (header.getD 1 0) &&& 0xe0 = 0xe0) then
      ("audio/mp3", none)
    else if (header.drop 4).take 4 = [0x66, 0x74, 0x79, 0x70] then ("audio/mp4", none)
    else ("audio/webm", none)

/-- Modelled from the claim C9 wording: the classification table over the
leading bytes of the payload, with no length precondition — bytes 0-3
RIFF with bytes 8-11 WAVE gives WAV; EBML header gives WebM; OggS gives
OGG; fLaC gives FLAC; ID3 at offset 0 or an MPEG frame-sync pattern gives
MP3; ftyp at offset 4 gives MP4; anything else defaults to WebM.  Output
values reuse the source's content-type strings to name the formats. -/
def classify_spec (audio : List Nat) : String :=
  if audio.take 4 = [0x52, 0x49, 0x46, 0x46] ∧
      (audio.drop 8).take 4 = [0x57, 0x41, 0x56, 0x45] then "audio/wav"
  else if audio.take 4 = [0x1a, 0x45, 0xdf, 0xa3] then "audio/webm"
  else if audio.take 4 = [0x4f, 0x67, 0x67, 0x53] then "audio/ogg"
  else if audio.take 4 = [0x66, 0x4c, 0x61, 0x43] then "audio/flac"
  else if audio.take 3 = [0x49, 0x44, 0x33] ∨
      (audio.getD 0 0 = 0xff ∧ (audio.getD 1 0) &&& 0xe0 = 0xe0) then "audio/mp3"
  else if (audio.drop 4).take 4 = [0x66, 0x74, 0x79, 0x70] then "audio/mp4"
  else "audio/webm"

/-! ### Concrete instances used by witnesses and counterexamples -/

/-- Empty pending-audit map. -/
def pend0 : String → Option Nat := fun _ => none

/-- TTS behaviour: synthesis raises (or yields nothing) for every text. -/
def ttsNone : String → Option (List Nat) := fun _ => none

/-- STT behaviour: transcription raises for every payload. -/
def sttNone : List Nat → Option (Option String) := fun _ => none

/-- Environment with no planner configured (generate raises), failing
audit store, no TTS, no STT. -/
def env0 : Env := ⟨"fp-0", none, none, ttsNone, sttNone⟩

/-- Environment with no planner configured but a working audit store. -/
def envNoLLM : Env := ⟨"fp-1", none, some 7, ttsNone, sttNone⟩

/-- An LLM-produced plan whose only step is a speak step carrying no
text (`{"kind": "speak"}` passes schema validation). -/
def planBad : AgentActionPlan := ⟨"pb", [⟨"speak", none, none, none, none⟩], none⟩

/-- Environment in which the planner returns `planBad`. -/
def envBad : Env := ⟨"fp-b", some planBad, none, ttsNone, sttNone⟩

/-- Audio buffers holding a 40-byte recording for user "u1". -/
def buffers40 : String → Option (List Nat) :=
  fun u => if u == "u1" then some (List.replicate 40 7) else none

/-- The capabilities message of the keyword fallback's default branch. -/
def capMsg : String :=
  "I can help you check balance, transfer money, or pay bills. What would you like to do?"

/-- The fallback plan of the balance/account/money branch. -/
def balancePlanOf (pid : String) : AgentActionPlan :=
  ⟨pid,
    [⟨"navigate", some "/dashboard", none, none, none⟩,
     ⟨"speak", none, none, none, some "Here is your account balance."⟩],
    some [("confidence", Json.num (9/10)), ("source", Json.str "fallback")]⟩

/-- The fallback plan of the no-keyword default branch. -/
def defaultPlanOf (pid : String) : AgentActionPlan :=
  ⟨pid, [⟨"speak", none, none, none, some capMsg⟩],
    some [("confidence", Json.num (1/2)), ("source", Json.str "fallback")]⟩

/-- Does the transcript hit any keyword set actually present in
`create_simple_plan`? -/
def fallbackKwAny (lower : String) : Bool :=
  anyIn lower ["balance", "account", "money", "kitna"] ||
  anyIn lower ["transfer", "send", "bhejo", "payment"] ||
  anyIn lower ["bill", "electricity", "water", "gas", "broadband"] ||
  anyIn lower ["profile", "settings", "beneficiary"]

/-- Modelled from the claim C5 wording: the keyword sets as listed in the
spec table (without the extra Hindi keywords the source adds). -/
def specTableMatch (lower : String) : Bool :=
  anyIn lower ["balance", "account", "money"] ||
  anyIn lower ["transfer", "send", "payment"] ||
  anyIn lower ["bill", "electricity", "water", "gas", "broadband"] ||
  anyIn lower ["profile", "settings", "beneficiary"]

/-- The parsed upstream JSON object `{"plan_id": "p", "steps": []}`. -/
def jsonEmptySteps : Json :=
  Json.obj [("plan_id", Json.str "p"), ("steps", Json.arr [])]

/-- The plan that validating `jsonEmptySteps` produces. -/
def planEmpty : AgentActionPlan := ⟨"p", [], none⟩

/-- A 12-byte RIFF/WAVE header. -/
def wavHeader : List Nat :=
  [0x52, 0x49, 0x46, 0x46, 0, 0, 0, 0, 0x57, 0x41, 0x56, 0x45]

/-- A 4-byte payload that is exactly the OggS magic. -/
def oggsShort : List Nat := [0x4f, 0x67, 0x67, 0x53]

/-- Frame f either is not a speak frame, or phrases exactly the text o. -/
def speakTextMatches (o : Option String) (f : OutFrame) : Bool :=
  !isSpeakFrame f || (frameText f == o)

/-! ### Helper lemmas about the speak frame -/

theorem speakFrameOf_isSpeak (env : Env) (t : String) :
    isSpeakFrame (speakFrameOf env t) = true := by
  rcases h : env.ttsResult t with _ | audio
  · simp [speakFrameOf, h, isSpeakFrame]
  · by_cases ha : audio.isEmpty <;> simp [speakFrameOf, h, ha, isSpeakFrame]

theorem speakFrameOf_text (env : Env) (t : String) :
    frameText (speakFrameOf env t) = some t := by
  rcases h : env.ttsResult t with _ | audio
  · simp [speakFrameOf, h, frameText]
  · by_cases ha : audio.isEmpty <;> simp [speakFrameOf, h, ha, frameText]

theorem speakFrameOf_not_dispatch (env : Env) (t : String) :
    isDispatchFrame (speakFrameOf env t) = false := by
  rcases h : env.ttsResult t with _ | audio
  · simp [speakFrameOf, h, isDispatchFrame]
  · by_cases ha : audio.isEmpty <;> simp [speakFrameOf, h, ha, isDispatchFrame]

theorem ack_frames_of_ack (env : Env) (plan : AgentActionPlan) (s : String)
    (h : get_acknowledgement plan.steps = some s) (hs : ¬ s = "") :
    ack_frames env plan = [speakFrameOf env s] := by
  unfold ack_frames
  rw [h]
  simp [speak_to_client, hs]

theorem ack_frames_no_dispatch (env : Env) (plan : AgentActionPlan) :
    (ack_frames env plan).countP isDispatchFrame = 0 := by
  unfold ack_frames
  rcases h : get_acknowledgement plan.steps with _ | s
  · rfl
  · by_cases hs : s == ""
    · simp [hs]
    · simp [hs, speak_to_client, List.countP_cons, speakFrameOf_not_dispatch]

theorem ack_frames_match (env : Env) (plan : AgentActionPlan) :
    (ack_frames env plan).all
      (speakTextMatches (get_acknowledgement plan.steps)) = true := by
  unfold ack_frames
  rcases h : get_acknowledgement plan.steps with _ | s
  · rfl
  · by_cases hs : s == ""
    · simp [hs]
    · simp [hs, speak_to_client, speakTextMatches, speakFrameOf_text]

/-! ### Claim theorems -/

/-- C4: `createFallbackPlan` (source: `create_simple_plan`) is a pure
total function — it is a Lean `def`, defined for every plan id and
transcript — and every plan it returns has at least one step, exactly one
of which is a speak step, and that speak step carries non-empty text. -/
theorem C4_fallback_total (pid t : String) :
    0 < (create_simple_plan pid t).steps.length ∧
    (create_simple_plan pid t).steps.countP isSpeakStep = 1 ∧
    ((create_simple_plan pid t).steps.filter isSpeakStep).all speakTextOk = true := by
  simp only [create_simple_plan]
  split_ifs <;> exact ⟨by norm_num, rfl, rfl⟩

/-- C6 (amended): every plan returned by the fallback entry point
`create_simple_plan` has at least one step.  The original claim also
covered `generate`; `C6_counterexample` shows a validated upstream
response can carry an empty steps list. -/
theorem C6_amended (pid t : String) :
    0 < (create_simple_plan pid t).steps.length := by
  simp only [create_simple_plan]
  split_ifs <;> norm_num

/-- C6 counterexample: the upstream JSON object
`{"plan_id": "p", "steps": []}` passes parsing and pydantic validation,
so `generate_action_plan` returns a plan with zero steps — refuting
"every ActionPlan returned by PlanGenerator contains at least one
Step". -/
theorem C6_counterexample :
    plan_from_response "fresh-id" jsonEmptySteps = some planEmpty ∧
    planEmpty.steps.length = 0 :=
  ⟨rfl, rfl⟩

/-- C5 (amended): the balance/account/money keywords route to the
two-step dashboard plan with the "fallback" source tag, and a transcript
matching none of the keyword sets actually present in the source — which
additionally contain "kitna" (balance set) and "bhejo" (transfer set) —
yields the single speak-only capabilities step with confidence 0.5. -/
theorem C5_amended (pid t : String) :
    ((strContains (lowerStr t) "balance" || strContains (lowerStr t) "account" ||
        strContains (lowerStr t) "money") = true →
      create_simple_plan pid t = balancePlanOf pid) ∧
    (fallbackKwAny (lowerStr t) = false →
      create_simple_plan pid t = defaultPlanOf pid) := by
  constructor
  · intro h
    have hc : anyIn (lowerStr t) ["balance", "account", "money", "kitna"] = true := by
      simp only [Bool.or_eq_true] at h
      rcases h with (h | h) | h <;> simp [anyIn, h]
    simp only [create_simple_plan]
    rw [if_pos hc]
    rfl
  · intro h
    have orf : ∀ a b : Bool, (a || b) = false → a = false ∧ b = false := by decide
    unfold fallbackKwAny at h
    obtain ⟨h123, h4⟩ := orf _ _ h
    obtain ⟨h12, h3⟩ := orf _ _ h123
    obtain ⟨h1, h2⟩ := orf _ _ h12
    simp only [create_simple_plan]
    rw [if_neg (by simp [h1]), if_neg (by simp [h2]),
      if_neg (by simp [h3]), if_neg (by simp [h4])]
    rfl

/-- C5 counterexample: "kitna" matches none of the keyword sets listed in
the spec's table, yet the source routes it to the two-step balance plan
instead of the claimed single speak-only step. -/
theorem C5_counterexample :
    specTableMatch (lowerStr "kitna") = false ∧
    (create_simple_plan "p" "kitna").steps.length = 2 :=
  ⟨by decide, by decide⟩

/-- C1 (amended): when the accumulated buffer is shorter than 100 bytes,
`finalize_audio` drains the buffer and never calls `stt.transcribe`, but
sends no outbound frame at all (it logs a warning and returns, leaving the
connection in IDLE); the pending-audit map is untouched. -/
theorem C1_amended (env : Env) (buffers : String → Option (List Nat))
    (pending : String → Option Nat) (u : String)
    (h : ((buffers u).getD []).length < 100) :
    (finalize_audio env buffers pending u).trace = [] ∧
    (finalize_audio env buffers pending u).sttCalls = [] ∧
    (finalize_audio env buffers pending u).buffers u = none ∧
    (finalize_audio env buffers pending u).pending = pending := by
  simp only [finalize_audio]
  rw [if_pos h]
  refine ⟨rfl, rfl, ?_, rfl⟩
  simp

/-- C1 counterexample: finalizing a 40-byte buffer sends zero frames —
in particular not the claimed single fallback `AGENT_SPEAK` reply — while
indeed never invoking transcription. -/
theorem C1_counterexample :
    (finalize_audio env0 buffers40 pend0 "u1").trace.countP isSpeakFrame = 0 ∧
    (finalize_audio env0 buffers40 pend0 "u1").sttCalls.length = 0 :=
  ⟨rfl, rfl⟩

/-- C1 witness: `C1_amended` at the concrete 40-byte buffer. -/
theorem C1_witness :
    ((buffers40 "u1").getD []).length < 100 ∧
    ((finalize_audio env0 buffers40 pend0 "u1").trace = [] ∧
      (finalize_audio env0 buffers40 pend0 "u1").sttCalls = [] ∧
      (finalize_audio env0 buffers40 pend0 "u1").buffers "u1" = none ∧
      (finalize_audio env0 buffers40 pend0 "u1").pending = pend0) :=
  ⟨by decide, C1_amended env0 buffers40 pend0 "u1" (by decide)⟩

/-- C2 (amended): whenever the chosen plan's first speak step carries
non-empty text (the condition under which the source sends an
acknowledgement at all), the outbound trace is exactly the `AGENT_SPEAK`
acknowledgement frame followed by the `ACTION_DISPATCH` frame — the
dispatch is never sent first. -/
theorem C2_amended (env : Env) (pending : String → Option Nat) (t s : String)
    (hack : get_acknowledgement (chosen_plan env t).steps = some s)
    (hs : ¬ s = "") :
    ((process_command env pending t).trace.head?.map isSpeakFrame) = some true ∧
    ((process_command env pending t).trace.head?.bind frameText) = some s ∧
    (process_command env pending t).trace.drop 1 =
      [OutFrame.actionDispatch (chosen_plan env t)] := by
  have ha := ack_frames_of_ack env (chosen_plan env t) s hack hs
  simp only [process_command]
  rw [ha]
  exact ⟨by simp [speakFrameOf_isSpeak], by simp [speakFrameOf_text], rfl⟩

/-- C2 counterexample: a schema-valid LLM plan whose single speak step has
no text (`planBad`) contains a speak step, yet the pipeline sends the
`ACTION_DISPATCH` frame with no `AGENT_SPEAK` frame at all — refuting
"for every command whose plan contains a speak step, the AGENT_SPEAK
acknowledgement frame is transmitted before the ACTION_DISPATCH frame". -/
theorem C2_counterexample :
    planBad.steps.countP isSpeakStep = 1 ∧
    (process_command envBad pend0 "hi").trace.countP isSpeakFrame = 0 ∧
    (process_command envBad pend0 "hi").trace.countP isDispatchFrame = 1 :=
  ⟨rfl, rfl, rfl⟩

/-- C2 witness: the spec scenario — no planner configured, command
"check my balance" — where the speak frame "Here is your account
balance." precedes the dispatch of [navigate /dashboard, speak]. -/
theorem C2_witness :
    get_acknowledgement (chosen_plan envNoLLM "check my balance").steps =
      some "Here is your account balance." ∧
    ¬ "Here is your account balance." = "" ∧
    (((process_command envNoLLM pend0 "check my balance").trace.head?.map isSpeakFrame) =
        some true ∧
      ((process_command envNoLLM pend0 "check my balance").trace.head?.bind frameText) =
        some "Here is your account balance." ∧
      (process_command envNoLLM pend0 "check my balance").trace.drop 1 =
        [OutFrame.actionDispatch (chosen_plan envNoLLM "check my balance")]) ∧
    (chosen_plan envNoLLM "check my balance").steps =
      [⟨"navigate", some "/dashboard", none, none, none⟩,
       ⟨"speak", none, none, none, some "Here is your account balance."⟩] :=
  ⟨rfl, by decide,
   C2_amended envNoLLM pend0 "check my balance" "Here is your account balance."
     rfl (by decide), rfl⟩

/-- C3: when `generate_action_plan` raises (for any reason — modelled by
`env.llmResult = none`), `process_command` still completes: its trace is
the fallback plan's acknowledgement frames followed by exactly one
`ACTION_DISPATCH` frame carrying `create_simple_plan`'s plan, and every
speak frame in the trace carries the fallback plan's acknowledgement text
(no user-visible error message). -/
theorem C3_fallback_dispatch (env : Env) (pending : String → Option Nat)
    (t : String) (h : env.llmResult = none) :
    (process_command env pending t).trace =
      ack_frames env (create_simple_plan env.freshPlanId t) ++
        [OutFrame.actionDispatch (create_simple_plan env.freshPlanId t)] ∧
    (process_command env pending t).trace.countP isDispatchFrame = 1 ∧
    (process_command env pending t).trace.all
      (speakTextMatches
        (get_acknowledgement (create_simple_plan env.freshPlanId t).steps)) = true := by
  have hp : chosen_plan env t = create_simple_plan env.freshPlanId t := by
    unfold chosen_plan
    rw [h]
  refine ⟨by simp only [process_command, hp], ?_, ?_⟩
  · simp only [process_command, hp]
    rw [List.countP_append, ack_frames_no_dispatch]
    rfl
  · simp only [process_command, hp]
    rw [List.all_append, ack_frames_match]
    rfl

/-- C3 witness: `C3_fallback_dispatch` at a concrete failing-planner
environment and command. -/
theorem C3_witness :
    envNoLLM.llmResult = none ∧
    ((process_command envNoLLM pend0 "pay my electricity bill").trace =
        ack_frames envNoLLM
            (create_simple_plan envNoLLM.freshPlanId "pay my electricity bill") ++
          [OutFrame.actionDispatch
            (create_simple_plan envNoLLM.freshPlanId "pay my electricity bill")] ∧
      (process_command envNoLLM pend0 "pay my electricity bill").trace.countP
          isDispatchFrame = 1 ∧
      (process_command envNoLLM pend0 "pay my electricity bill").trace.all
        (speakTextMatches
          (get_acknowledgement
            (create_simple_plan envNoLLM.freshPlanId "pay my electricity bill").steps)) =
        true) :=
  ⟨rfl, C3_fallback_dispatch envNoLLM pend0 "pay my electricity bill" rfl⟩

/-- C7 (amended): an `EXECUTION_RESULT` whose plan id is not in the
pending-audit map triggers no audit update and leaves the map unchanged
and raises nothing — but the handler still sends exactly one `AGENT_SPEAK`
reply frame (the original claim's "no outbound frame" part is refuted by
`C7_counterexample`). -/
theorem C7_amended (env : Env) (pending : String → Option Nat) (pid : String)
    (status error : Option String) (h : pending pid = none) :
    (handle_execution_result env pending (some pid) status error).auditUpdates = [] ∧
    (handle_execution_result env pending (some pid) status error).pending = pending ∧
    (handle_execution_result env pending (some pid) status error).trace.countP
      isSpeakFrame = 1 ∧
    (handle_execution_result env pending (some pid) status error).trace.length = 1 := by
  have hscrut : (if pid == "" then none
      else (pending pid).map (fun a => (pid, a))) = (none : Option (String × Nat)) := by
    by_cases hp : pid == "" <;> simp [hp, h]
  simp only [handle_execution_result, hscrut]
  simp [speak_to_client, List.countP_cons, speakFrameOf_isSpeak]

/-- C7 counterexample: for `EXECUTION_RESULT{plan_id:"p1",
status:"success"}` with an empty pending-audit map, no audit update
happens, yet one outbound `AGENT_SPEAK` frame ("Done. What else can I
help you with?") is sent — refuting "no outbound frame is sent in
reply". -/
theorem C7_counterexample :
    pend0 "p1" = none ∧
    (handle_execution_result env0 pend0 (some "p1") (some "success") none).auditUpdates =
      [] ∧
    (handle_execution_result env0 pend0 (some "p1") (some "success") none).trace.length =
      1 ∧
    ((handle_execution_result env0 pend0 (some "p1") (some "success") none).trace.head?.bind
      frameText) = some "Done. What else can I help you with?" :=
  ⟨rfl, rfl, rfl, rfl⟩

/-- C7 witness: `C7_amended` at the concrete unknown plan id "p1". -/
theorem C7_witness :
    pend0 "p1" = none ∧
    ((handle_execution_result env0 pend0 (some "p1") (some "success") none).auditUpdates =
        [] ∧
      (handle_execution_result env0 pend0 (some "p1") (some "success") none).pending =
        pend0 ∧
      (handle_execution_result env0 pend0 (some "p1") (some "success") none).trace.countP
        isSpeakFrame = 1 ∧
      (handle_execution_result env0 pend0 (some "p1") (some "success") none).trace.length =
        1) :=
  ⟨rfl, C7_amended env0 pend0 "p1" (some "success") none rfl⟩

/-- C8 (amended): `broadcast` delivers, in registration order, to the
connections up to but not including the first one whose send raises; a
raising send aborts the loop (the exception propagates), so the
connections after it are not attempted.  Delivery reaches all registered
connections exactly when every send succeeds. -/
theorem C8_amended (data : String) (conns : List (String × Bool)) :
    broadcast data conns =
      ((conns.takeWhile (fun c => c.2)).map (fun c => (c.1, data)),
        conns.all (fun c => c.2)) := by
  induction conns with
  | nil => rfl
  | cons c rest ih =>
    by_cases hc : c.2 = true
    · simp [broadcast, hc, List.takeWhile_cons, ih]
    · simp only [Bool.not_eq_true] at hc
      simp [broadcast, hc, List.takeWhile_cons]

/-- C8 counterexample: with connections [a (send raises), b (send ok)],
nothing is delivered at all — b is still registered and healthy but is
never attempted — refuting "delivery to the remaining registered
connections is still attempted".  The second conjunct shows b receives
the message when the loop does reach it. -/
theorem C8_counterexample :
    (broadcast "msg" [("a", false), ("b", true)]).1 = [] ∧
    (broadcast "msg" [("b", true)]).1 = [("b", "msg")] :=
  ⟨rfl, rfl⟩

/-! Slice arithmetic used to relate `header := audio.take 12` slices to
the claim's direct byte positions. -/

theorem take4_of_take4 : ∀ l : List Nat, (l.take 4).take 4 = l.take 4
  | [] => rfl
  | [_] => rfl
  | [_, _] => rfl
  | [_, _, _] => rfl
  | _ :: _ :: _ :: _ :: _ => rfl

theorem take4_of_take8 : ∀ l : List Nat, (l.take 8).take 4 = l.take 4
  | [] => rfl
  | [_] => rfl
  | [_, _] => rfl
  | [_, _, _] => rfl
  | _ :: _ :: _ :: _ :: _ => rfl

theorem take12_take4 : ∀ l : List Nat, (l.take 12).take 4 = l.take 4
  | [] => rfl
  | [_] => rfl
  | [_, _] => rfl
  | [_, _, _] => rfl
  | _ :: _ :: _ :: _ :: _ => rfl

theorem take12_take3 : ∀ l : List Nat, (l.take 12).take 3 = l.take 3
  | [] => rfl
  | [_] => rfl
  | [_, _] => rfl
  | _ :: _ :: _ :: _ => rfl

theorem take12_drop8_take4 :
    ∀ l : List Nat, ((l.take 12).drop 8).take 4 = (l.drop 8).take 4
  | [] => rfl
  | [_] => rfl
  | [_, _] => rfl
  | [_, _, _] => rfl
  | [_, _, _, _] => rfl
  | [_, _, _, _, _] => rfl
  | [_, _, _, _, _, _] => rfl
  | [_, _, _, _, _, _, _] => rfl
  | _ :: _ :: _ :: _ :: _ :: _ :: _ :: _ :: t => take4_of_take4 t

theorem take12_drop4_take4 :
    ∀ l : List Nat, ((l.take 12).drop 4).take 4 = (l.drop 4).take 4
  | [] => rfl
  | [_] => rfl
  | [_, _] => rfl
  | [_, _, _] => rfl
  | _ :: _ :: _ :: _ :: t => take4_of_take8 t

theorem take12_getD0 : ∀ l : List Nat, (l.take 12).getD 0 0 = l.getD 0 0
  | [] => rfl
  | _ :: _ => rfl

theorem take12_getD1 : ∀ l : List Nat, (l.take 12).getD 1 0 = l.getD 1 0
  | [] => rfl
  | [_] => rfl
  | _ :: _ :: _ => rfl

/-- C9 (amended): for payloads of at least 12 bytes the source's format
detection agrees exactly with the claim's classification table
(`classify_spec`); `C9_counterexample` shows the two disagree on shorter
payloads, which the source sends to the webm default before consulting
the table. -/
theorem C9_amended (audio : List Nat) (h : 12 ≤ audio.length) :
    (detect_audio_format audio).1 = classify_spec audio := by
  simp only [detect_audio_format, classify_spec]
  rw [if_neg (by omega)]
  simp only [take12_take4, take12_take3, take12_drop8_take4, take12_drop4_take4,
    take12_getD0, take12_getD1]
  split_ifs <;> rfl

/-- C9 counterexample: the 4-byte payload consisting exactly of the OggS
magic is classified `audio/webm` by the source (length below 12), while
the claim's table sends every payload whose bytes 0-3 are OggS to OGG. -/
theorem C9_counterexample :
    (detect_audio_format oggsShort).1 = "audio/webm" ∧
    classify_spec oggsShort = "audio/ogg" :=
  ⟨rfl, rfl⟩

/-- C9 witness: `C9_amended` at a concrete 12-byte RIFF/WAVE header. -/
theorem C9_witness :
    12 ≤ wavHeader.length ∧
    (detect_audio_format wavHeader).1 = classify_spec wavHeader :=
  ⟨by decide, C9_amended wavHeader (by decide)⟩

/-- C10: when `audit_service.log_command` raises (`env.auditResult =
none`), the exception is caught: the pipeline still sends the
acknowledgement `AGENT_SPEAK` frame followed by the `ACTION_DISPATCH`
frame, and the pending-audit map is left exactly as it was — so no entry
exists for the plan id and a later `EXECUTION_RESULT` for it is treated
as unknown. -/
theorem C10_audit_failure (env : Env) (pending : String → Option Nat)
    (t s : String) (haud : env.auditResult = none)
    (hack : get_acknowledgement (chosen_plan env t).steps = some s)
    (hs : ¬ s = "") :
    (process_command env pending t).pending = pending ∧
    (process_command env pending t).trace =
      [speakFrameOf env s, OutFrame.actionDispatch (chosen_plan env t)] ∧
    isSpeakFrame (speakFrameOf env s) = true ∧
    frameText (speakFrameOf env s) = some s := by
  have ha := ack_frames_of_ack env (chosen_plan env t) s hack hs
  simp only [process_command, haud]
  refine ⟨trivial, ?_, speakFrameOf_isSpeak env s, speakFrameOf_text env s⟩
  rw [ha]
  rfl

/-- C10 witness: `C10_audit_failure` with planner and audit store both
failing on the command "hello". -/
theorem C10_witness :
    env0.auditResult = none ∧
    get_acknowledgement (chosen_plan env0 "hello").steps = some capMsg ∧
    ¬ capMsg = "" ∧
    ((process_command env0 pend0 "hello").pending = pend0 ∧
      (process_command env0 pend0 "hello").trace =
        [speakFrameOf env0 capMsg, OutFrame.actionDispatch (chosen_plan env0 "hello")] ∧
      isSpeakFrame (speakFrameOf env0 capMsg) = true ∧
      frameText (speakFrameOf env0 capMsg) = some capMsg) :=
  ⟨rfl, rfl, by decide, C10_audit_failure env0 pend0 "hello" capMsg rfl rfl (by decide)⟩

/-- C5 witness: both branches of `C5_amended` at concrete transcripts. -/
theorem C5_witness :
    ((strContains (lowerStr "check my balance") "balance" ||
        strContains (lowerStr "check my balance") "account" ||
        strContains (lowerStr "check my balance") "money") = true ∧
      create_simple_plan "p1" "check my balance" = balancePlanOf "p1") ∧
    (fallbackKwAny (lowerStr "namaste") = false ∧
      create_simple_plan "p2" "namaste" = defaultPlanOf "p2") :=
  ⟨⟨by decide, (C5_amended "p1" "check my balance").1 (by decide)⟩,
   ⟨by decide, (C5_amended "p2" "namaste").2 (by decide)⟩⟩
